import Mathlib

/-!
Shallow embedding of `pandapower/timeseries/data_sources/frame_data.py`.

The module under verification wraps a `pandas.DataFrame` (rows keyed by
time-step labels, columns keyed by profile-name labels) behind a small
read interface:

* `DFData.__init__(df, multi)` — stores a reference to the caller's frame;
  when `multi` is true it reassigns `df.index = df.index.astype(int)` and
  `df.columns = df.columns.astype(int)` on that very frame (in place).
* `DFData.__repr__` — a diagnostic string with the class name, the row
  count and the column count, and (when there are at most 10 columns) the
  printed list of column labels.
* `DFData.get_time_step_value(t, p, scale_factor)` — `self.df.loc[t, p]`,
  then `res = res.values` when the result is a Series/frame, then
  `res *= scale_factor`.
* `DFData.get_time_steps_len()` — `len(self.df)`.

The frame is modelled as an explicit value of type `DataFrame`; since the
wrapper's only state is a reference to the externally owned frame, each
method is embedded as a function of the frame state at call time, and the
methods that could in principle mutate the frame return the frame state
after the call as a second component, so that absence of mutation is a
provable statement rather than a typing accident.

Labels are integers or strings (the two label kinds the spec discusses),
cells are rationals (Python floats modelled exactly) or strings (the
non-numeric cell content of the error claims).  Scale factors are Python
floats, modelled as rationals; multiplying a string cell by a float raises
`TypeError` in Python, which the model mirrors.
-/

set_option autoImplicit false

namespace FrameData

/-- A pandas axis label: an integer label or a string label. -/
inductive Label where
  | int (n : Int)
  | str (s : String)
deriving DecidableEq

/-- A cell of the frame: numeric content (a Python float, modelled as a
rational) or non-numeric (string) content. -/
inductive Cell where
  | num (q : ℚ)
  | str (s : String)
deriving DecidableEq

/-- The Python exceptions the module can raise. -/
inductive PyError where
  | keyError
  | typeError
  | valueError
deriving DecidableEq

/-- The externally owned two-dimensional labelled table: row labels
(`index`), column labels (`columns`), and the cell matrix in row-major
order (`data`).  Well-formed frames have `data.length = index.length` and
every row of length `columns.length`; the embedding does not bake this in,
mirroring the absence of validation in the code. -/
structure DataFrame where
  index : List Label
  columns : List Label
  data : List (List Cell)
deriving DecidableEq

/-- The rows of the frame whose label equals `t`, in order — the row set
`df.loc[t, _]` addresses. -/
def rowsFor (idx : List Label) (data : List (List Cell)) (t : Label) : List (List Cell) :=
  (idx.zip data).filterMap fun lr => if lr.1 = t then some lr.2 else none

/-- Rows of `df` labelled `t` (label-based addressing, as `.loc` does). -/
def DataFrame.locRows (df : DataFrame) (t : Label) : List (List Cell) :=
  rowsFor df.index df.data t

/-- The positions (in column order) of the columns labelled `p` — the
column set `df.loc[_, p]` addresses; several positions when the label is
duplicated. -/
def colPositions (cols : List Label) (p : Label) : List Nat :=
  (List.range cols.length).filter fun j => decide (cols.get? j = some p)

/-- Column positions of label `p` in `df`. -/
def DataFrame.colPositions (df : DataFrame) (p : Label) : List Nat :=
  FrameData.colPositions df.columns p

/-- The shape of a `df.loc[t, p]` result: a scalar when both labels are
unique, a 1-D Series for a duplicated label on exactly one axis, a 2-D
frame when both labels are duplicated. -/
inductive LocResult where
  | scalar (c : Cell)
  | series (cs : List Cell)
  | frame (css : List (List Cell))
deriving DecidableEq

/-- `df.loc[t, p]` classified by the matched row list and column-position
list: `KeyError` when either label is absent, otherwise the matched cells
with the scalar/Series/frame shape pandas produces. -/
def locAux : List (List Cell) → List Nat → Except PyError LocResult
  | [], _ => .error .keyError
  | _, [] => .error .keyError
  | [row], [j] => .ok (.scalar (row.getD j (.num 0)))
  | [row], js => .ok (.series (js.map fun k => row.getD k (.num 0)))
  | rows, [j] => .ok (.series (rows.map fun row => row.getD j (.num 0)))
  | rows, js => .ok (.frame (rows.map fun row => js.map fun k => row.getD k (.num 0)))

/-- `df.loc[time_step, profile_name]`. -/
def DataFrame.loc (df : DataFrame) (t p : Label) : Except PyError LocResult :=
  locAux (df.locRows t) (df.colPositions p)

/-- `res *= scale_factor` on one cell: numeric content scales, string
content raises `TypeError` (a Python `str` times a float). -/
def scaleCell (c : Cell) (sf : ℚ) : Except PyError ℚ :=
  match c with
  | .num q => .ok (q * sf)
  | .str _ => .error .typeError

/-- Elementwise `*= scale_factor` over a 1-D array: `TypeError` as soon as
any element is non-numeric. -/
def scaleCells (cs : List Cell) (sf : ℚ) : Except PyError (List ℚ) :=
  match cs with
  | [] => .ok []
  | c :: rest =>
    match scaleCell c sf, scaleCells rest sf with
    | .ok q, .ok qs => .ok (q :: qs)
    | .error e, _ => .error e
    | .ok _, .error e => .error e

/-- Elementwise `*= scale_factor` over a 2-D array. -/
def scaleRows (css : List (List Cell)) (sf : ℚ) : Except PyError (List (List ℚ)) :=
  match css with
  | [] => .ok []
  | cs :: rest =>
    match scaleCells cs sf, scaleRows rest sf with
    | .ok qs, .ok qss => .ok (qs :: qss)
    | .error e, _ => .error e
    | .ok _, .error e => .error e

/-- The value `get_time_step_value` returns: a scalar, a 1-D numeric
array, or a 2-D numeric array. -/
inductive PyVal where
  | num (q : ℚ)
  | arr (qs : List ℚ)
  | arr2 (qss : List (List ℚ))
deriving DecidableEq

/-- The decimal value of one character, when it is a digit. -/
def charDigit? (c : Char) : Option Nat :=
  if 48 ≤ c.toNat ∧ c.toNat ≤ 57 then some (c.toNat - 48) else none

/-- Decimal value of a digit sequence, accumulator style; `none` as soon
as a non-digit appears. -/
def digitsVal : List Char → Nat → Option Nat
  | [], acc => some acc
  | c :: cs, acc =>
    match charDigit? c with
    | some d => digitsVal cs (acc * 10 + d)
    | none => none

/-- Python `int(string)` as `astype(int)` applies it to a label: an
optional sign followed by at least one decimal digit; anything else is a
conversion failure. -/
def strToInt? (s : String) : Option Int :=
  match s.data with
  | [] => none
  | c :: cs =>
    if c.toNat = 45 then
      match cs with
      | [] => none
      | d :: ds => (digitsVal (d :: ds) 0).map fun n => -(n : Int)
    else if c.toNat = 43 then
      match cs with
      | [] => none
      | d :: ds => (digitsVal (d :: ds) 0).map fun n => (n : Int)
    else
      (digitsVal (c :: cs) 0).map fun n => (n : Int)

/-- `int(...)` conversion applied to one label by `Index.astype(int)`: an
integer label stays itself, a string label is parsed as an integer and a
non-integer string raises a conversion error. -/
def Label.astypeInt : Label → Except PyError Label
  | .int n => .ok (.int n)
  | .str s =>
    match strToInt? s with
    | some n => .ok (.int n)
    | none => .error .valueError

/-- `Index.astype(int)` over a whole label list: every label converted, or
the conversion error. -/
def coerceLabels (ls : List Label) : Except PyError (List Label) :=
  match ls with
  | [] => .ok []
  | l :: rest =>
    match Label.astypeInt l, coerceLabels rest with
    | .ok a, .ok as => .ok (a :: as)
    | .error e, _ => .error e
    | .ok _, .error e => .error e

/-- `DFData.__init__(df, multi)`.  The result's first component is the
frame the wrapper ends up referencing, the second is the caller's frame
after construction; the code mutates the caller's frame in place, so on
success the two are the same frame. -/
def DFData.init (df : DataFrame) (multi : Bool) : Except PyError (DataFrame × DataFrame) :=
  if multi then
    match coerceLabels df.index with
    | .error e => .error e
    | .ok idx =>
      match coerceLabels df.columns with
      | .error e => .error e
      | .ok cols =>
        let dfc : DataFrame := ⟨idx, cols, df.data⟩
        .ok (dfc, dfc)
  else
    .ok (df, df)

/-- How one label prints inside the column list of `__repr__`. -/
def Label.render : Label → String
  | .int n => toString n
  | .str s => s

/-- The printed column-label list (`df.columns.values.__str__()`). -/
def columnsStr (cols : List Label) : String :=
  "[" ++ String.intercalate " " (cols.map Label.render) ++ "]"

/-- `DFData.__repr__`: class name, row count and column count, plus the
printed column list when there are at most 10 columns.  Second component:
the frame after the call. -/
def DFData.reprString (df : DataFrame) : String × DataFrame :=
  let s := "DFData with " ++ toString df.index.length ++ " rows and "
    ++ toString df.columns.length ++ " columns"
  (if df.columns.length ≤ 10 then s ++ ": " ++ columnsStr df.columns else s, df)

/-- `DFData.get_time_step_value(time_step, profile_name, scale_factor)`:
`self.df.loc[time_step, profile_name]`, unwrapped to a bare array via
`.values` when it is a Series/frame, then multiplied by the scale factor.
pandas returns a scalar or a fresh Series/frame here, so the frame itself
is left as it was; the second component is the frame after the call. -/
def DFData.get_time_step_value (df : DataFrame) (t p : Label) (sf : ℚ) :
    Except PyError PyVal × DataFrame :=
  (match df.loc t p with
    | .error e => .error e
    | .ok (.scalar c) =>
      match scaleCell c sf with
      | .ok q => .ok (.num q)
      | .error e => .error e
    | .ok (.series cs) =>
      match scaleCells cs sf with
      | .ok qs => .ok (.arr qs)
      | .error e => .error e
    | .ok (.frame css) =>
      match scaleRows css sf with
      | .ok qss => .ok (.arr2 qss)
      | .error e => .error e,
    df)

/-- `DFData.get_time_steps_len()`: `len(self.df)`, the current row count.
Second component: the frame after the call. -/
def DFData.get_time_steps_len (df : DataFrame) : Nat × DataFrame :=
  (df.index.length, df)

/-- External mutation scenario: another holder of the frame overwrites the
cell at row position `i`, column position `j`. -/
def DataFrame.setCell (df : DataFrame) (i j : Nat) (c : Cell) : DataFrame :=
  ⟨df.index, df.columns, df.data.set i ((df.data.getD i []).set j c)⟩

/-- External mutation scenario: another holder appends a row to the frame. -/
def DataFrame.appendRow (df : DataFrame) (t : Label) (row : List Cell) : DataFrame :=
  ⟨df.index ++ [t], df.columns, df.data ++ [row]⟩

/-- External mutation scenario: another holder drops the last row. -/
def DataFrame.dropLastRow (df : DataFrame) : DataFrame :=
  ⟨df.index.dropLast, df.columns, df.data.dropLast⟩

/-- The scenario frame of the spec: rows labelled 0, 1, 2, columns
labelled "p1" and "p2", with cell (1, "p2") = 4. -/
def exDf : DataFrame :=
  ⟨[.int 0, .int 1, .int 2], [.str "p1", .str "p2"],
   [[.num 1, .num 2], [.num 3, .num 4], [.num 5, .num 6]]⟩

/-- A label absent from the row labels selects no row. -/
theorem rowsFor_of_not_mem (idx : List Label) (t : Label) (h : t ∉ idx) :
    ∀ data : List (List Cell), rowsFor idx data t = [] := by
  induction idx with
  | nil => intro data; rfl
  | cons a as ih =>
    intro data
    cases data with
    | nil => rfl
    | cons d ds =>
      have ha : ¬ a = t := fun he => h (he ▸ List.mem_cons_self a as)
      have hmem : t ∉ as := fun hm => h (List.mem_cons_of_mem a hm)
      simp only [rowsFor, List.zip_cons_cons, List.filterMap_cons, if_neg ha]
      exact ih hmem ds

/-- A label absent from the column labels selects no column position. -/
theorem colPositions_of_not_mem (cols : List Label) (p : Label) (h : p ∉ cols) :
    colPositions cols p = [] := by
  apply List.filter_eq_nil_iff.mpr
  intro j hj
  intro habs
  have : cols.get? j = some p := of_decide_eq_true habs
  exact h (List.get?_mem this)

/-- An empty column selection yields `KeyError` no matter the row match. -/
theorem locAux_nil_right (rows : List (List Cell)) : locAux rows [] = .error .keyError := by
  cases rows with
  | nil => rfl
  | cons r rs => simp [locAux]

/-- A row label occurring exactly once, at position `i`, selects exactly
the row at position `i`. -/
theorem rowsFor_of_count_one (idx : List Label) (t : Label) :
    ∀ (data : List (List Cell)) (i : Nat), idx.get? i = some t → idx.count t = 1 →
      data.length = idx.length → rowsFor idx data t = [data.getD i []] := by
  induction idx with
  | nil => intro data i hget _ _; simp at hget
  | cons a as ih =>
    intro data i hget hcount hlen
    cases data with
    | nil => simp at hlen
    | cons d ds =>
      cases i with
      | zero =>
        have hat : a = t := by simpa using hget
        subst hat
        have hnot : a ∉ as := by
          intro hm
          have h1 : 0 < List.count a as := List.count_pos_iff.mpr hm
          have h2 := List.count_cons_self a as
          rw [hcount] at h2
          omega
        have htail := rowsFor_of_not_mem as a hnot ds
        simp only [rowsFor, List.zip_cons_cons, List.filterMap_cons] at htail ⊢
        simp [htail]
      | succ k =>
        have hget' : as.get? k = some t := by simpa using hget
        have hmem : t ∈ as := List.get?_mem hget'
        have hat : ¬ a = t := by
          intro hat
          subst hat
          have h1 : 0 < List.count a as := List.count_pos_iff.mpr hmem
          have h2 := List.count_cons_self a as
          rw [hcount] at h2
          omega
        have hta : ¬ t = a := fun he => hat he.symm
        have hcount' : List.count t as = 1 := by
          have h2 : List.count t (a :: as) = List.count t as := by
            simp [List.count_cons, hta]
          rw [← h2, hcount]
        have hlen' : ds.length = as.length := by simpa using hlen
        have htail := ih ds k hget' hcount' hlen'
        simp only [rowsFor] at htail
        simp only [rowsFor, List.zip_cons_cons, List.filterMap_cons]
        simp [hat, htail]

/-- C1: for a (timeStep, profileName) pair present in the frame with a
unique matching row and a unique matching column holding numeric value
`q`, `get_time_step_value` returns the stored value multiplied by the
scale factor, and with scale factor 1 it returns the stored value
exactly. -/
theorem get_time_step_value_scales (df : DataFrame) (t p : Label) (row : List Cell)
    (j : Nat) (q sf : ℚ)
    (hrow : df.locRows t = [row]) (hcol : df.colPositions p = [j])
    (hcell : row.getD j (Cell.num 0) = Cell.num q) :
    (DFData.get_time_step_value df t p sf).1 = .ok (.num (q * sf)) ∧
    (DFData.get_time_step_value df t p 1).1 = .ok (.num q) := by
  have hc2 : (row[j]?).getD (Cell.num 0) = Cell.num q := by
    rw [← List.getD_eq_getElem?_getD]; exact hcell
  constructor
  · simp [DFData.get_time_step_value, DataFrame.loc, hrow, hcol, locAux, hc2, scaleCell]
  · simp [DFData.get_time_step_value, DataFrame.loc, hrow, hcol, locAux, hc2, scaleCell]

/-- Witness for C1 on the spec scenario frame: cell (1, "p2") = 4, scale
factor 2 returns 4 * 2, scale factor 1 returns 4. -/
theorem get_time_step_value_scales_witness :
    (DFData.get_time_step_value exDf (.int 1) (.str "p2") 2).1 = .ok (.num (4 * 2)) ∧
    (DFData.get_time_step_value exDf (.int 1) (.str "p2") 1).1 = .ok (.num 4) :=
  get_time_step_value_scales exDf (.int 1) (.str "p2") [.num 3, .num 4] 1 4 2
    (by decide) (by decide) (by decide)

/-- C2: a time step absent from the row labels or a profile name absent
from the column labels makes `get_time_step_value` fail with `KeyError`;
no default or null value is returned. -/
theorem get_time_step_value_keyError (df : DataFrame) (t p : Label) (sf : ℚ)
    (h : t ∉ df.index ∨ p ∉ df.columns) :
    (DFData.get_time_step_value df t p sf).1 = .error .keyError := by
  rcases h with h | h
  · have hrows : df.locRows t = [] := rowsFor_of_not_mem df.index t h df.data
    simp [DFData.get_time_step_value, DataFrame.loc, hrows, locAux]
  · have hcols : df.colPositions p = [] := colPositions_of_not_mem df.columns p h
    simp [DFData.get_time_step_value, DataFrame.loc, hcols, locAux_nil_right]

/-- Witness for C2 on the spec scenario frame: time step 5 is absent, so
the lookup fails with `KeyError`. -/
theorem get_time_step_value_keyError_witness :
    (DFData.get_time_step_value exDf (.int 5) (.str "p2") 1).1 = .error .keyError :=
  get_time_step_value_keyError exDf (.int 5) (.str "p2") 1 (.inl (by decide))

/-- C5: apart from the optional coercion at construction, no operation
mutates the frame: `get_time_step_value` (any scale factor),
`get_time_steps_len` and the repr helper all leave the frame — every
cell, row key and column key — unchanged. -/
theorem reads_do_not_mutate (df : DataFrame) (t p : Label) (sf : ℚ) :
    (DFData.get_time_step_value df t p sf).2 = df ∧
    (DFData.get_time_steps_len df).2 = df ∧
    (DFData.reprString df).2 = df :=
  ⟨rfl, rfl, rfl⟩

/-- Reading the position just overwritten returns the new element. -/
theorem getD_set_self {α : Type} (l : List α) (i : Nat) (a d : α) (h : i < l.length) :
    (l.set i a).getD i d = a := by
  rw [List.getD_eq_getElem?_getD, List.getElem?_set_self h]
  rfl

/-- C3: neither accessor caches.  `get_time_steps_len` returns the row
count of the frame at call time — it grows by one after an external row
append and shrinks by one after an external row removal — and
`get_time_step_value` re-reads the cell from the frame, so an external
overwrite of the addressed cell is reflected by the next call. -/
theorem no_caching (df dfm : DataFrame) (t2 : Label) (row2 : List Cell)
    (t p : Label) (i j : Nat) (q sf : ℚ)
    (hi : dfm.index.get? i = some t) (hcount : dfm.index.count t = 1)
    (hlen : dfm.data.length = dfm.index.length)
    (hcol : dfm.colPositions p = [j]) (hj : j < (dfm.data.getD i []).length) :
    (DFData.get_time_steps_len df).1 = df.index.length ∧
    (DFData.get_time_steps_len (df.appendRow t2 row2)).1 = df.index.length + 1 ∧
    (DFData.get_time_steps_len df.dropLastRow).1 = df.index.length - 1 ∧
    (DFData.get_time_step_value (dfm.setCell i j (Cell.num q)) t p sf).1 =
      .ok (.num (q * sf)) := by
  refine ⟨rfl, ?_, ?_, ?_⟩
  · simp [DFData.get_time_steps_len, DataFrame.appendRow]
  · simp [DFData.get_time_steps_len, DataFrame.dropLastRow]
  · have hil : i < dfm.index.length := by
      by_contra hge
      rw [List.get?_len_le (Nat.le_of_not_lt hge)] at hi
      exact Option.noConfusion hi
    have hid : i < dfm.data.length := by omega
    have hrows : (dfm.setCell i j (Cell.num q)).locRows t
        = [(dfm.data.getD i []).set j (Cell.num q)] := by
      have h1 := rowsFor_of_count_one dfm.index t
        (dfm.data.set i ((dfm.data.getD i []).set j (Cell.num q))) i hi hcount
        (by simpa using hlen)
      have h2 : (dfm.data.set i ((dfm.data.getD i []).set j (Cell.num q))).getD i []
          = (dfm.data.getD i []).set j (Cell.num q) := getD_set_self _ _ _ _ hid
      rw [h2] at h1
      exact h1
    have hcol2 : (dfm.setCell i j (Cell.num q)).colPositions p = [j] := hcol
    have hc2 : ((((dfm.data.getD i []).set j (Cell.num q))[j]?).getD (Cell.num 0))
        = Cell.num q := by
      rw [← List.getD_eq_getElem?_getD]
      exact getD_set_self _ _ _ _ (by simpa using hj)
    simp only [List.getD_eq_getElem?_getD] at hc2
    simp [DFData.get_time_step_value, DataFrame.loc, hrows, hcol2, locAux, hc2, scaleCell]

/-- Witness for C3 on the spec scenario frame: the row count tracks an
appended and a dropped row, and an external overwrite of cell (1, "p2")
with 9 is returned by the next read. -/
theorem no_caching_witness :
    (DFData.get_time_steps_len exDf).1 = exDf.index.length ∧
    (DFData.get_time_steps_len (exDf.appendRow (.int 3) [.num 7, .num 8])).1 =
      exDf.index.length + 1 ∧
    (DFData.get_time_steps_len exDf.dropLastRow).1 = exDf.index.length - 1 ∧
    (DFData.get_time_step_value (exDf.setCell 1 1 (.num 9)) (.int 1) (.str "p2") 1).1 =
      .ok (.num (9 * 1)) :=
  no_caching exDf exDf (.int 3) [.num 7, .num 8] (.int 1) (.str "p2") 1 1 9 1
    (by decide) (by decide) (by decide) (by decide) (by decide)

/-- `int(...)` applied to every element of a string list: all parsed, or
conversion failure. -/
def parseAll (ss : List String) : Option (List Int) :=
  match ss with
  | [] => some []
  | s :: rest =>
    match strToInt? s, parseAll rest with
    | some n, some ns => some (n :: ns)
    | _, _ => none

/-- `astype(int)` on a list of integer-valued string labels yields the
corresponding integer labels. -/
theorem coerceLabels_strings (ss : List String) (ns : List Int)
    (h : parseAll ss = some ns) :
    coerceLabels (ss.map Label.str) = .ok (ns.map Label.int) := by
  induction ss generalizing ns with
  | nil =>
    simp only [parseAll] at h
    cases h
    rfl
  | cons s rest ih =>
    cases hs : strToInt? s with
    | none => simp [parseAll, hs] at h
    | some n =>
      cases hr : parseAll rest with
      | none => simp [parseAll, hs, hr] at h
      | some ms =>
        have hns : ns = n :: ms := by
          simp [parseAll, hs, hr] at h
          exact h.symm
        subst hns
        simp [coerceLabels, Label.astypeInt, hs, ih ms hr]

/-- C4: constructing with the coercion flag on a frame whose row and
column labels are integer-valued strings rewrites both key spaces to the
corresponding integers, keeps the cells, and mutates the caller's frame
in place: the frame the wrapper holds and the caller's frame after
construction are one and the same coerced frame. -/
theorem init_coerces (df : DataFrame) (si sc : List String) (ni nc : List Int)
    (hI : df.index = si.map Label.str) (hC : df.columns = sc.map Label.str)
    (hni : parseAll si = some ni) (hnc : parseAll sc = some nc) :
    DFData.init df true =
      .ok (⟨ni.map Label.int, nc.map Label.int, df.data⟩,
           ⟨ni.map Label.int, nc.map Label.int, df.data⟩) := by
  simp [DFData.init, hI, hC, coerceLabels_strings si ni hni, coerceLabels_strings sc nc hnc]

/-- Witness for C4: labels "0" "1" "2" / "3" "4" become the integer
labels 0 1 2 / 3 4, on the one shared frame. -/
theorem init_coerces_witness :
    DFData.init ⟨[.str "0", .str "1", .str "2"], [.str "3", .str "4"], [[.num 1]]⟩ true =
      .ok (⟨[.int 0, .int 1, .int 2], [.int 3, .int 4], [[.num 1]]⟩,
           ⟨[.int 0, .int 1, .int 2], [.int 3, .int 4], [[.num 1]]⟩) :=
  init_coerces ⟨[.str "0", .str "1", .str "2"], [.str "3", .str "4"], [[.num 1]]⟩
    ["0", "1", "2"] ["3", "4"] [0, 1, 2] [3, 4] rfl rfl (by decide) (by decide)

/-- A single matched row with at least two matched column positions is a
Series over those positions, in column order. -/
theorem locAux_series (row : List Cell) (j1 j2 : Nat) (js : List Nat) :
    locAux [row] (j1 :: j2 :: js) =
      .ok (.series ((j1 :: j2 :: js).map fun k => row.getD k (Cell.num 0))) := by
  rfl

/-- Scaling an all-numeric 1-D array multiplies every entry. -/
theorem scaleCells_map_num (qs : List ℚ) (sf : ℚ) :
    scaleCells (qs.map Cell.num) sf = .ok (qs.map fun x => x * sf) := by
  induction qs with
  | nil => rfl
  | cons a l ih => simp [scaleCells, scaleCell, ih]

/-- C6: for a valid (timeStep, profileName) pair, a profile name matching
a single column yields a scalar, while a profile name matching several
(duplicate) columns yields the ordered sequence of those cells in column
order; either way the result is multiplied elementwise by the scale
factor. -/
theorem get_time_step_value_shape (df1 df2 : DataFrame) (t1 p1 t2 p2 : Label)
    (row1 row2 : List Cell) (j j1 j2 : Nat) (js : List Nat)
    (q : ℚ) (qs : List ℚ) (sf : ℚ)
    (h1r : df1.locRows t1 = [row1]) (h1c : df1.colPositions p1 = [j])
    (h1q : row1.getD j (Cell.num 0) = Cell.num q)
    (h2r : df2.locRows t2 = [row2]) (h2c : df2.colPositions p2 = j1 :: j2 :: js)
    (h2q : (j1 :: j2 :: js).map (fun k => row2.getD k (Cell.num 0)) = qs.map Cell.num) :
    (DFData.get_time_step_value df1 t1 p1 sf).1 = .ok (.num (q * sf)) ∧
    (DFData.get_time_step_value df2 t2 p2 sf).1 = .ok (.arr (qs.map fun x => x * sf)) := by
  constructor
  · have hc2 : (row1[j]?).getD (Cell.num 0) = Cell.num q := by
      rw [← List.getD_eq_getElem?_getD]; exact h1q
    simp [DFData.get_time_step_value, DataFrame.loc, h1r, h1c, locAux, hc2, scaleCell]
  · have hloc : df2.loc t2 p2 =
        .ok (.series ((j1 :: j2 :: js).map fun k => row2.getD k (Cell.num 0))) := by
      rw [DataFrame.loc, h2r, h2c, locAux_series]
    rw [DFData.get_time_step_value]
    simp only [hloc, h2q, scaleCells_map_num]

/-- Witness for C6: a frame with duplicate column label "p" returns the
row's cells in order, each doubled; a frame with a unique column returns
the doubled scalar. -/
theorem get_time_step_value_shape_witness :
    (DFData.get_time_step_value exDf (.int 2) (.str "p1") 2).1 = .ok (.num (5 * 2)) ∧
    (DFData.get_time_step_value
        ⟨[.int 0], [.str "p", .str "p"], [[.num 3, .num 4]]⟩
        (.int 0) (.str "p") 2).1 = .ok (.arr ([3, 4].map fun x => x * 2)) :=
  get_time_step_value_shape exDf ⟨[.int 0], [.str "p", .str "p"], [[.num 3, .num 4]]⟩
    (.int 2) (.str "p1") (.int 0) (.str "p")
    [.num 5, .num 6] [.num 3, .num 4] 0 0 1 [] 5 [3, 4] 2
    (by decide) (by decide) (by decide) (by decide) (by decide) (by decide)

/-- C8: reads are idempotent: a second `get_time_step_value` call with
identical arguments, run on the frame state the first call left behind,
returns exactly what the first call returned. -/
theorem get_time_step_value_idempotent (df : DataFrame) (t p : Label) (sf : ℚ) :
    DFData.get_time_step_value (DFData.get_time_step_value df t p sf).2 t p sf =
      DFData.get_time_step_value df t p sf :=
  rfl

/-- A frame with eleven columns, for the long-column branch of the repr
helper. -/
def exDfWide : DataFrame :=
  ⟨[], List.replicate 11 (Label.int 0), []⟩

/-- C7: the repr helper always produces the type name followed by the row
count and the column count; it appends the printed column-label list
exactly when there are at most 10 columns; and a repeat call on the frame
state the first call left behind produces the identical string. -/
theorem reprString_spec (df dfa dfb : DataFrame)
    (ha : dfa.columns.length ≤ 10) (hb : 10 < dfb.columns.length) :
    (∃ rest, (DFData.reprString df).1 =
        "DFData with " ++ toString df.index.length ++ " rows and "
          ++ toString df.columns.length ++ " columns" ++ rest) ∧
    (DFData.reprString dfa).1 =
        "DFData with " ++ toString dfa.index.length ++ " rows and "
          ++ toString dfa.columns.length ++ " columns" ++ ": " ++ columnsStr dfa.columns ∧
    (DFData.reprString dfb).1 =
        "DFData with " ++ toString dfb.index.length ++ " rows and "
          ++ toString dfb.columns.length ++ " columns" ∧
    (DFData.reprString (DFData.reprString df).2).1 = (DFData.reprString df).1 := by
  refine ⟨?_, ?_, ?_, rfl⟩
  · by_cases h : df.columns.length ≤ 10
    · refine ⟨": " ++ columnsStr df.columns, ?_⟩
      rw [← String.append_assoc]
      simp [DFData.reprString, h]
    · exact ⟨"", by simp [DFData.reprString, h]⟩
  · simp [DFData.reprString, ha]
  · simp [DFData.reprString, Nat.not_le.mpr hb]

/-- Witness for C7: the scenario frame has 2 columns, so its column list
is appended; the eleven-column frame gets no column list. -/
theorem reprString_spec_witness :
    (DFData.reprString exDf).1 =
        "DFData with " ++ toString exDf.index.length ++ " rows and "
          ++ toString exDf.columns.length ++ " columns" ++ ": " ++ columnsStr exDf.columns ∧
    (DFData.reprString exDfWide).1 =
        "DFData with " ++ toString exDfWide.index.length ++ " rows and "
          ++ toString exDfWide.columns.length ++ " columns" :=
  ⟨(reprString_spec exDf exDf exDfWide (by decide) (by decide)).2.1,
   (reprString_spec exDf exDf exDfWide (by decide) (by decide)).2.2.1⟩

/-- `astype(int)` can only fail with the conversion error. -/
theorem astypeInt_error (l : Label) (e : PyError) (h : Label.astypeInt l = .error e) :
    e = .valueError := by
  cases l with
  | int n => simp [Label.astypeInt] at h
  | str s =>
    rw [Label.astypeInt] at h
    cases hs : strToInt? s with
    | some n => rw [hs] at h; simp at h
    | none =>
      rw [hs] at h
      have := Except.error.inj h
      exact this.symm

/-- One non-integer-convertible label makes the whole `astype(int)` fail
with the conversion error. -/
theorem coerceLabels_error (ls : List Label) (s : String)
    (hmem : Label.str s ∈ ls) (hs : strToInt? s = none) :
    coerceLabels ls = .error .valueError := by
  induction ls with
  | nil => simp at hmem
  | cons l rest ih =>
    rcases List.mem_cons.mp hmem with he | hm
    · rw [coerceLabels, ← he]
      simp [Label.astypeInt, hs]
    · cases hl : Label.astypeInt l with
      | ok a => rw [coerceLabels, hl, ih hm]
      | error e =>
        rw [coerceLabels, hl, astypeInt_error l e hl]

/-- C9: failures surface at the point of occurrence with no fallback: a
non-integer-convertible key under the coercion flag fails construction
with the conversion error, and non-numeric cell content fails
`get_time_step_value` with a type error when the scale multiplication is
attempted. -/
theorem failfast_errors (dfa dfb : DataFrame) (s sb : String)
    (t p : Label) (row : List Cell) (j : Nat) (sf : ℚ)
    (hmem : Label.str s ∈ dfa.index) (hs : strToInt? s = none)
    (hbr : dfb.locRows t = [row]) (hbc : dfb.colPositions p = [j])
    (hbq : row.getD j (Cell.num 0) = Cell.str sb) :
    DFData.init dfa true = .error .valueError ∧
    (DFData.get_time_step_value dfb t p sf).1 = .error .typeError := by
  constructor
  · simp [DFData.init, coerceLabels_error dfa.index s hmem hs]
  · have hc2 : (row[j]?).getD (Cell.num 0) = Cell.str sb := by
      rw [← List.getD_eq_getElem?_getD]; exact hbq
    simp [DFData.get_time_step_value, DataFrame.loc, hbr, hbc, locAux, hc2, scaleCell]

/-- Witness for C9: the key "x" is not integer-convertible, so coercing
construction fails; the cell ("bad") under (0, "p") is non-numeric, so
reading it with a scale factor fails with the type error. -/
theorem failfast_errors_witness :
    DFData.init ⟨[.str "x"], [.str "p"], [[.num 1]]⟩ true = .error .valueError ∧
    (DFData.get_time_step_value ⟨[.int 0], [.str "p"], [[.str "bad"]]⟩
        (.int 0) (.str "p") 2).1 = .error .typeError :=
  failfast_errors ⟨[.str "x"], [.str "p"], [[.num 1]]⟩
    ⟨[.int 0], [.str "p"], [[.str "bad"]]⟩ "x" "bad"
    (.int 0) (.str "p") [.str "bad"] 0 2
    (by decide) (by decide) (by decide) (by decide) (by decide)

/-- C10: addressing is by key label, never by position, and the
consecutive-from-0 row-key assumption is never checked: on a frame whose
row labels are not 0, 1, 2, ... the lookup still returns the cell with
the requested labels, and construction without the coercion flag accepts
the frame unchanged, without error. -/
theorem label_addressing (df : DataFrame) (t p : Label) (row : List Cell)
    (j : Nat) (q sf : ℚ)
    (hnc : df.index ≠ (List.range df.index.length).map fun k => Label.int (Int.ofNat k))
    (hrow : df.locRows t = [row]) (hcol : df.colPositions p = [j])
    (hcell : row.getD j (Cell.num 0) = Cell.num q) :
    (DFData.get_time_step_value df t p sf).1 = .ok (.num (q * sf)) ∧
    DFData.init df false = .ok (df, df) := by
  constructor
  · have hc2 : (row[j]?).getD (Cell.num 0) = Cell.num q := by
      rw [← List.getD_eq_getElem?_getD]; exact hcell
    simp [DFData.get_time_step_value, DataFrame.loc, hrow, hcol, locAux, hc2, scaleCell]
  · rfl

/-- Witness for C10: row labels 5 and 17 (not consecutive, not starting
at 0) still address their cells by label, and construction with the flag
false succeeds on that frame. -/
theorem label_addressing_witness :
    (DFData.get_time_step_value ⟨[.int 5, .int 17], [.str "a"], [[.num 3], [.num 7]]⟩
        (.int 17) (.str "a") 2).1 = .ok (.num (7 * 2)) ∧
    DFData.init ⟨[.int 5, .int 17], [.str "a"], [[.num 3], [.num 7]]⟩ false =
      .ok (⟨[.int 5, .int 17], [.str "a"], [[.num 3], [.num 7]]⟩,
           ⟨[.int 5, .int 17], [.str "a"], [[.num 3], [.num 7]]⟩) :=
  label_addressing ⟨[.int 5, .int 17], [.str "a"], [[.num 3], [.num 7]]⟩
    (.int 17) (.str "a") [.num 7] 0 7 2
    (by decide) (by decide) (by decide) (by decide)

end FrameData
